import Mathlib

/-!
Shallow embedding of the vatz-plugin-ethereum block-height plugin
(src/plugins/node_block_sync/main.go) and proofs about it.

The embedding models:
- `hexToInt64`, the hex-string-to-int64 conversion, including the exact
  behaviour of Go's `big.Int.SetString(s, 16)` (optional single sign,
  then one or more case-insensitive hex digits) and the `IsInt64` range
  check;
- `pluginFeature`, the evaluation tick: the RPC / JSON-decode / parse
  failure short-circuits and the staleness state machine over the
  process globals `prevHeight` and `warningCount`.

Machine integers: `prevHeight` and the parsed height are Go `int64`;
every value stored there is produced by `hexToInt64`, which guarantees
the signed 64-bit range, and no arithmetic is performed on them, so they
are carried as `Int`.  `warningCount` is a Go `int` (64-bit) that is
incremented, so its increment is wrapped explicitly with `wrap64`
(two's-complement wraparound, which is Go's defined overflow behaviour).
-/

namespace VatzEthereum

/-- Value of a single hex digit, as accepted by Go's `big.Int.SetString`
with base 16 (case-insensitive); `none` for any non-hex-digit rune. -/
def hexDigitVal (c : Char) : Option Nat :=
  if '0' ≤ c ∧ c ≤ '9' then some (c.toNat - '0'.toNat)
  else if 'a' ≤ c ∧ c ≤ 'f' then some (c.toNat - 'a'.toNat + 10)
  else if 'A' ≤ c ∧ c ≤ 'F' then some (c.toNat - 'A'.toNat + 10)
  else none

/-- Whether `c` is one of the digits `[0-9a-fA-F]`. -/
def isHexDigit (c : Char) : Bool :=
  (hexDigitVal c).isSome

/-- Accumulating base-16 evaluation of a digit run; `none` as soon as a
non-digit is met.  This is the digit loop of `big.Int.SetString`. -/
def hexDigitsAcc (acc : Nat) : List Char → Option Nat
  | [] => some acc
  | c :: rest =>
    match hexDigitVal c with
    | none => none
    | some d => hexDigitsAcc (16 * acc + d) rest

/-- Value of a non-empty run of hex digits; `none` when the run is empty
or contains a non-digit. -/
def hexVal? (cs : List Char) : Option Nat :=
  match cs with
  | [] => none
  | _ :: _ => hexDigitsAcc 0 cs

/-- Go's `big.Int.SetString(s, 16)`: an optional single sign `+`/`-`
followed by one or more hex digits; anything else returns `none`
(`ok == false`). -/
def bigIntSetString16 (cs : List Char) : Option Int :=
  match cs with
  | [] => none
  | c :: rest =>
    if c = '+' then (hexVal? rest).map (fun n => (n : Int))
    else if c = '-' then (hexVal? rest).map (fun n => -(n : Int))
    else (hexVal? (c :: rest)).map (fun n => (n : Int))

/-- Largest signed 64-bit value. -/
def int64Max : Int := 2 ^ 63 - 1

/-- Smallest signed 64-bit value. -/
def int64Min : Int := -(2 ^ 63)

/-- The prefix strip of `hexToInt64`: drop a leading lowercase `0x`
(`len(hexStr) >= 2 && hexStr[:2] == "0x"`). -/
def strip0x (cs : List Char) : List Char :=
  if cs.take 2 = ['0', 'x'] then cs.drop 2 else cs

/-- `hexToInt64` on the rune sequence of the input string: strip an
optional lowercase `0x`, run `big.Int.SetString` with base 16, then
fail unless the value passes `IsInt64`. -/
def hexToInt64Core (cs : List Char) : Except String Int :=
  let s := strip0x cs
  match bigIntSetString16 s with
  | none => Except.error ("failed to parse hex string: " ++ String.mk s)
  | some n =>
    if n < int64Min ∨ int64Max < n then
      Except.error ("hex value too large for int64: " ++ String.mk s)
    else
      Except.ok n

/-- The Go function `hexToInt64`. -/
def hexToInt64 (s : String) : Except String Int :=
  hexToInt64Core s.data

/-- Two's-complement wraparound into the signed 64-bit range: Go's
defined behaviour for overflow of `int` arithmetic. -/
def wrap64 (n : Int) : Int :=
  (n + 2 ^ 63) % 2 ^ 64 - 2 ^ 63

/-- `pluginpb` severity values used by the plugin. -/
inductive Severity where
  | unknown
  | info
  | warning
  | critical
  deriving DecidableEq, Repr

/-- `pluginpb` state values used by the plugin. -/
inductive PState where
  | none
  | success
  | failure
  deriving DecidableEq, Repr

/-- The fields of `sdk.CallResponse` the plugin writes. -/
structure CallResponse where
  funcName : String
  message : String
  severity : Severity
  state : PState
  deriving DecidableEq, Repr

/-- The process-global detector state: `prevHeight` and `warningCount`. -/
structure DetectorState where
  prevHeight : Int
  warningCount : Int
  deriving DecidableEq, Repr

/-- The configuration the evaluation reads: the `critical` flag
(`criticalCount`, default 3). -/
structure Config where
  criticalCount : Int
  deriving DecidableEq, Repr

/-- Outcome of the external RPC exchange feeding one evaluation:
the POST failed, the body did not decode into `BlockHeightResponse`,
or a decoded `Result` hex string was obtained.  The error message of
the failed external step is carried as a string. -/
inductive RpcOutcome where
  | transportErr (msg : String)
  | decodeErr (msg : String)
  | ok (result : String)
  deriving DecidableEq, Repr

/-- Result of one call of `pluginFeature`: the `sdk.CallResponse`, the
detector globals after the call, and the Go `error` return value. -/
structure TickResult where
  resp : CallResponse
  newState : DetectorState
  err : Option String
  deriving DecidableEq, Repr

/-- The underlying error message of a failing tick: the transport or
decode error, or the `hexToInt64` error; `none` when the tick reaches
the staleness logic. -/
def underlyingError : RpcOutcome → Option String
  | .transportErr e => some e
  | .decodeErr e => some e
  | .ok result =>
    match hexToInt64 result with
    | .error e => some e
    | .ok _ => none

/-- The Go function `pluginFeature`, with the external RPC exchange
abstracted into an `RpcOutcome` input and the global mutable state
passed explicitly. -/
def pluginFeature (cfg : Config) (execMethod : String) (st : DetectorState)
    (rpc : RpcOutcome) : TickResult :=
  let ret : CallResponse :=
    { funcName := execMethod
      message := "Unable to fetch block height"
      severity := Severity.unknown
      state := PState.none }
  match rpc with
  | .transportErr e =>
    { resp := { ret with
        message := "Failed to get response: " ++ e
        severity := Severity.critical
        state := PState.failure }
      newState := st
      err := some e }
  | .decodeErr e =>
    { resp := { ret with
        message := "Failed to parse response: " ++ e
        severity := Severity.critical
        state := PState.failure }
      newState := st
      err := some e }
  | .ok result =>
    match hexToInt64 result with
    | .error e =>
      { resp := { ret with
          message := "Failed to convert hex to int64: " ++ e
          severity := Severity.critical
          state := PState.failure }
        newState := st
        err := some e }
    | .ok latestHeight =>
      if latestHeight > st.prevHeight then
        { resp := { ret with
            message := "Block height increasing. Current height: " ++ toString latestHeight
            severity := Severity.info
            state := PState.success }
          newState := { prevHeight := latestHeight, warningCount := 0 }
          err := none }
      else
        let wc := wrap64 (st.warningCount + 1)
        if wc > cfg.criticalCount then
          { resp := { ret with
              message := "Block height stuck more than " ++ toString cfg.criticalCount
                ++ " times. Current height: " ++ toString latestHeight
              severity := Severity.critical
              state := PState.success }
            newState := { prevHeight := latestHeight, warningCount := wc }
            err := none }
        else
          { resp := { ret with
              message := "Block height stuck " ++ toString wc
                ++ " times. Current height: " ++ toString latestHeight
              severity := Severity.warning
              state := PState.success }
            newState := { prevHeight := latestHeight, warningCount := wc }
            err := none }

/-- Mathematical base-16 value of a run of characters, reading each
through `hexDigitVal` (non-digits count 0; only applied to digit runs). -/
def hexNatValue (cs : List Char) : Nat :=
  cs.foldl (fun a c => 16 * a + (hexDigitVal c).getD 0) 0

/-- Strip at most one leading sign character, as `big.Int.SetString`
does before reading digits. -/
def stripSign (cs : List Char) : List Char :=
  match cs with
  | [] => []
  | c :: rest => if c = '+' ∨ c = '-' then rest else c :: rest

lemma hexDigitsAcc_good : ∀ (cs : List Char) (acc : Nat),
    (∀ c ∈ cs, isHexDigit c = true) →
    hexDigitsAcc acc cs =
      some (cs.foldl (fun a c => 16 * a + (hexDigitVal c).getD 0) acc)
  | [], _, _ => rfl
  | c :: rest, acc, h => by
    have hc : (hexDigitVal c).isSome = true := h c (List.mem_cons_self c rest)
    obtain ⟨d, hd⟩ := Option.isSome_iff_exists.mp hc
    simp only [hexDigitsAcc, hd, List.foldl_cons]
    rw [hexDigitsAcc_good rest (16 * acc + d)
      (fun x hx => h x (List.mem_cons_of_mem _ hx))]
    simp [hd]

lemma hexDigitsAcc_bad : ∀ (cs : List Char) (acc : Nat),
    (∃ c ∈ cs, isHexDigit c = false) → hexDigitsAcc acc cs = none
  | [], _, h => by simp at h
  | c :: rest, acc, h => by
    obtain ⟨b, hb, hbad⟩ := h
    cases hv : hexDigitVal c with
    | none => simp [hexDigitsAcc, hv]
    | some d =>
      simp only [hexDigitsAcc, hv]
      rcases List.mem_cons.mp hb with rfl | hbr
      · rw [isHexDigit, hv] at hbad
        simp at hbad
      · exact hexDigitsAcc_bad rest (16 * acc + d) ⟨b, hbr, hbad⟩

lemma hexVal?_good (cs : List Char) (hne : cs ≠ [])
    (hhex : ∀ c ∈ cs, isHexDigit c = true) :
    hexVal? cs = some (hexNatValue cs) := by
  cases cs with
  | nil => exact absurd rfl hne
  | cons c rest =>
    simp only [hexVal?]
    exact hexDigitsAcc_good (c :: rest) 0 hhex

lemma hexVal?_none (cs : List Char)
    (h : cs = [] ∨ ∃ c ∈ cs, isHexDigit c = false) :
    hexVal? cs = none := by
  cases cs with
  | nil => rfl
  | cons c rest =>
    rcases h with h | h
    · exact absurd h (by simp)
    · simp only [hexVal?]
      exact hexDigitsAcc_bad (c :: rest) 0 h

lemma bigIntSetString16_digits (cs : List Char) (hne : cs ≠ [])
    (hhex : ∀ c ∈ cs, isHexDigit c = true) :
    bigIntSetString16 cs = some ((hexNatValue cs : Int)) := by
  cases cs with
  | nil => exact absurd rfl hne
  | cons c rest =>
    have hc : isHexDigit c = true := hhex c (List.mem_cons_self c rest)
    have hplus : ¬ c = '+' := by
      intro h
      rw [h] at hc
      exact absurd hc (by decide)
    have hminus : ¬ c = '-' := by
      intro h
      rw [h] at hc
      exact absurd hc (by decide)
    simp only [bigIntSetString16, if_neg hplus, if_neg hminus]
    rw [hexVal?_good (c :: rest) (by simp) hhex]
    rfl

lemma strip0x_of_digits (pre digits : List Char)
    (hpre : pre = [] ∨ pre = ['0', 'x'])
    (hhex : ∀ c ∈ digits, isHexDigit c = true) :
    strip0x (pre ++ digits) = digits := by
  rcases hpre with rfl | rfl
  · rw [List.nil_append]
    cases digits with
    | nil => rfl
    | cons c1 rest1 =>
      cases rest1 with
      | nil =>
        simp only [strip0x, List.take]
        rw [if_neg (by simp)]
      | cons c2 rest2 =>
        rw [strip0x, if_neg]
        intro htake
        simp only [List.take, List.cons.injEq] at htake
        have h2 : isHexDigit c2 = true :=
          hhex c2 (List.mem_cons_of_mem _ (List.mem_cons_self c2 rest2))
        rw [htake.2.1] at h2
        exact absurd h2 (by decide)
  · rw [List.cons_append, List.cons_append, List.nil_append]
    rw [strip0x, if_pos (by rfl)]
    rfl

lemma bigIntSetString16_none (s : List Char)
    (h : stripSign s = [] ∨ ∃ c ∈ stripSign s, isHexDigit c = false) :
    bigIntSetString16 s = none := by
  cases s with
  | nil => rfl
  | cons c rest =>
    by_cases hsign : c = '+' ∨ c = '-'
    · have hs : stripSign (c :: rest) = rest := by
        rw [stripSign, if_pos hsign]
      rw [hs] at h
      have hrest : hexVal? rest = none := hexVal?_none rest h
      rcases hsign with rfl | rfl
      · simp [bigIntSetString16, hrest]
      · simp [bigIntSetString16, hrest]
    · have hplus : ¬ c = '+' := fun hc => hsign (Or.inl hc)
      have hminus : ¬ c = '-' := fun hc => hsign (Or.inr hc)
      have hs : stripSign (c :: rest) = c :: rest := by
        rw [stripSign, if_neg hsign]
      rw [hs] at h
      have hcs : hexVal? (c :: rest) = none := hexVal?_none (c :: rest) h
      simp [bigIntSetString16, if_neg hplus, if_neg hminus, hcs]

lemma wrap64_eq_self {n : Int} (h1 : int64Min ≤ n) (h2 : n ≤ int64Max) :
    wrap64 n = n := by
  have e1 : (2 : Int) ^ 63 = 9223372036854775808 := by norm_num
  have e2 : (2 : Int) ^ 64 = 18446744073709551616 := by norm_num
  simp only [wrap64, int64Min, int64Max, e1, e2] at *
  omega

lemma stall_step_newState (cfg : Config) (m res : String) (st : DetectorState)
    (h : Int) (hp : hexToInt64 res = Except.ok h) (hle : h ≤ st.prevHeight) :
    (pluginFeature cfg m st (RpcOutcome.ok res)).newState =
      ⟨h, wrap64 (st.warningCount + 1)⟩ := by
  simp only [pluginFeature, hp]
  rw [if_neg (not_lt.mpr hle)]
  split <;> rfl

lemma stall_step_severity (cfg : Config) (m res : String) (st : DetectorState)
    (h : Int) (hp : hexToInt64 res = Except.ok h) (hle : h ≤ st.prevHeight) :
    (pluginFeature cfg m st (RpcOutcome.ok res)).resp.severity =
      (if wrap64 (st.warningCount + 1) > cfg.criticalCount then Severity.critical
       else Severity.warning) := by
  simp only [pluginFeature, hp]
  rw [if_neg (not_lt.mpr hle)]
  by_cases hc : wrap64 (st.warningCount + 1) > cfg.criticalCount
  · rw [if_pos hc, if_pos hc]
  · rw [if_neg hc, if_neg hc]

/-- Claim C1: on every evaluation whose parsed height is less than or
equal to `previousHeight` (the first-ever call, where `previousHeight`
is 0, included), the detector increments `stallCount` by exactly 1,
classifies CRITICAL when the new count strictly exceeds
`criticalThreshold` and WARNING otherwise, and sets `previousHeight`
to the observed height.  The two range hypotheses say the stored
`warningCount` is a signed 64-bit value below the maximum, which holds
in every reachable state. -/
theorem pluginFeature_stall_classification
    (cfg : Config) (m res : String) (st : DetectorState) (h : Int)
    (hp : hexToInt64 res = Except.ok h) (hle : h ≤ st.prevHeight)
    (hlo : int64Min ≤ st.warningCount) (hhi : st.warningCount < int64Max) :
    (pluginFeature cfg m st (RpcOutcome.ok res)).newState.warningCount
        = st.warningCount + 1 ∧
    (pluginFeature cfg m st (RpcOutcome.ok res)).resp.severity =
      (if st.warningCount + 1 > cfg.criticalCount then Severity.critical
       else Severity.warning) ∧
    (pluginFeature cfg m st (RpcOutcome.ok res)).newState.prevHeight = h := by
  have hw : wrap64 (st.warningCount + 1) = st.warningCount + 1 :=
    wrap64_eq_self (le_trans hlo (by omega)) (by omega)
  rw [stall_step_newState cfg m res st h hp hle,
    stall_step_severity cfg m res st h hp hle, hw]
  exact ⟨rfl, rfl, rfl⟩

/-- Witness for C1: threshold 3, previous height 100, stall count 0,
observed height 100 — the count becomes 1, the severity is WARNING,
and the previous height is set to 100. -/
theorem pluginFeature_stall_classification_witness :
    (pluginFeature ⟨3⟩ ("m") ⟨100, 0⟩ (RpcOutcome.ok ("0x64"))).newState.warningCount
        = 0 + 1 ∧
    (pluginFeature ⟨3⟩ ("m") ⟨100, 0⟩ (RpcOutcome.ok ("0x64"))).resp.severity =
      (if (0 : Int) + 1 > (3 : Int) then Severity.critical else Severity.warning) ∧
    (pluginFeature ⟨3⟩ ("m") ⟨100, 0⟩ (RpcOutcome.ok ("0x64"))).newState.prevHeight
        = 100 :=
  pluginFeature_stall_classification ⟨3⟩ "m" "0x64" ⟨100, 0⟩ 100
    (by rfl) (by decide) (by decide) (by decide)

/-- Claim C2: on every evaluation whose parsed height strictly exceeds
`previousHeight`, the detector classifies INFO with a success outcome,
resets `stallCount` to 0, and sets `previousHeight` to the observed
height. -/
theorem pluginFeature_increase_info
    (cfg : Config) (m res : String) (st : DetectorState) (h : Int)
    (hp : hexToInt64 res = Except.ok h) (hgt : st.prevHeight < h) :
    (pluginFeature cfg m st (RpcOutcome.ok res)).resp.severity = Severity.info ∧
    (pluginFeature cfg m st (RpcOutcome.ok res)).resp.state = PState.success ∧
    (pluginFeature cfg m st (RpcOutcome.ok res)).err = none ∧
    (pluginFeature cfg m st (RpcOutcome.ok res)).newState.warningCount = 0 ∧
    (pluginFeature cfg m st (RpcOutcome.ok res)).newState.prevHeight = h := by
  simp only [pluginFeature, hp]
  rw [if_pos hgt]
  exact ⟨rfl, rfl, rfl, rfl, rfl⟩

/-- Witness for C2: previous height 100, stall count 5, observed height
101 — INFO, SUCCESS, stall count reset to 0, previous height 101. -/
theorem pluginFeature_increase_info_witness :
    (pluginFeature ⟨3⟩ ("m") ⟨100, 5⟩ (RpcOutcome.ok ("0x65"))).resp.severity
        = Severity.info ∧
    (pluginFeature ⟨3⟩ ("m") ⟨100, 5⟩ (RpcOutcome.ok ("0x65"))).resp.state
        = PState.success ∧
    (pluginFeature ⟨3⟩ ("m") ⟨100, 5⟩ (RpcOutcome.ok ("0x65"))).err = none ∧
    (pluginFeature ⟨3⟩ ("m") ⟨100, 5⟩ (RpcOutcome.ok ("0x65"))).newState.warningCount
        = 0 ∧
    (pluginFeature ⟨3⟩ ("m") ⟨100, 5⟩ (RpcOutcome.ok ("0x65"))).newState.prevHeight
        = 101 :=
  pluginFeature_increase_info ⟨3⟩ "m" "0x65" ⟨100, 5⟩ 101 (by rfl) (by decide)

/-- Claim C3: whenever the RPC call fails, the body does not decode, or
the hex parse fails, the evaluation returns severity CRITICAL with
state FAILURE and a message embedding the underlying error, and leaves
`previousHeight` and `stallCount` unchanged. -/
theorem pluginFeature_failure_preserves_state
    (cfg : Config) (m : String) (st : DetectorState) (rpc : RpcOutcome)
    (e : String) (he : underlyingError rpc = some e) :
    (pluginFeature cfg m st rpc).resp.severity = Severity.critical ∧
    (pluginFeature cfg m st rpc).resp.state = PState.failure ∧
    (∃ p, (pluginFeature cfg m st rpc).resp.message = p ++ e) ∧
    (pluginFeature cfg m st rpc).newState = st := by
  cases rpc with
  | transportErr msg =>
    simp only [underlyingError, Option.some.injEq] at he
    subst he
    exact ⟨rfl, rfl, ⟨"Failed to get response: ", rfl⟩, rfl⟩
  | decodeErr msg =>
    simp only [underlyingError, Option.some.injEq] at he
    subst he
    exact ⟨rfl, rfl, ⟨"Failed to parse response: ", rfl⟩, rfl⟩
  | ok result =>
    cases hres : hexToInt64 result with
    | error msg =>
      simp only [underlyingError, hres, Option.some.injEq] at he
      subst he
      refine ⟨?_, ?_, ⟨"Failed to convert hex to int64: ", ?_⟩, ?_⟩ <;>
        simp [pluginFeature, hres]
    | ok v =>
      simp only [underlyingError, hres] at he
      exact Option.noConfusion he

/-- Witness for C3: a transport error with message `boom` yields
CRITICAL, FAILURE, a message carrying `boom`, and an unchanged
detector state. -/
theorem pluginFeature_failure_preserves_state_witness :
    (pluginFeature ⟨3⟩ ("m") ⟨100, 2⟩ (RpcOutcome.transportErr ("boom"))).resp.severity
        = Severity.critical ∧
    (pluginFeature ⟨3⟩ ("m") ⟨100, 2⟩ (RpcOutcome.transportErr ("boom"))).resp.state
        = PState.failure ∧
    (pluginFeature ⟨3⟩ ("m") ⟨100, 2⟩ (RpcOutcome.transportErr ("boom"))).resp.message
        = "Failed to get response: " ++ "boom" ∧
    (pluginFeature ⟨3⟩ ("m") ⟨100, 2⟩ (RpcOutcome.transportErr ("boom"))).newState
        = ⟨100, 2⟩ :=
  have h := pluginFeature_failure_preserves_state ⟨3⟩ "m" ⟨100, 2⟩
    (RpcOutcome.transportErr ("boom")) "boom" rfl
  ⟨h.1, h.2.1, rfl, h.2.2.2⟩

/-- Counterexample to C4 as stated: the input `0x-1` strips to `-1`,
which contains the character `-` outside `[0-9a-fA-F]`, yet
`hexToInt64` succeeds (with value -1), because `big.Int.SetString`
accepts an optional leading sign. -/
theorem hexToInt64_sign_counterexample :
    (∃ c ∈ strip0x (("0x-1").data), isHexDigit c = false) ∧
    hexToInt64 ("0x-1") = Except.ok (-1) :=
  ⟨by decide, rfl⟩

/-- Claim C4 (amended): for every input string, if after stripping an
optional leading lowercase `0x` prefix and then at most one leading
sign character `+` or `-`, the remaining string is empty or contains
any character outside `[0-9a-fA-F]`, then `hexToInt64` fails with the
malformed-hex error. -/
theorem hexToInt64_malformed_rejects (s : String)
    (hbad : stripSign (strip0x s.data) = [] ∨
      ∃ c ∈ stripSign (strip0x s.data), isHexDigit c = false) :
    hexToInt64 s =
      Except.error ("failed to parse hex string: " ++ String.mk (strip0x s.data)) := by
  have hnone := bigIntSetString16_none (strip0x s.data) hbad
  simp only [hexToInt64, hexToInt64Core, hnone]

/-- Witness for the amended C4: `0xzz` strips to `zz`, whose first
character is not a hex digit, and the parse fails with the
malformed-hex error. -/
theorem hexToInt64_malformed_rejects_witness :
    hexToInt64 ("0xzz") =
      Except.error ("failed to parse hex string: " ++ String.mk (strip0x (("0xzz").data))) :=
  hexToInt64_malformed_rejects ("0xzz") (Or.inr (by decide))

/-- Claim C5: every string made of an optional lowercase `0x` prefix
followed by one or more hex digits whose base-16 value is at most the
maximum signed 64-bit integer parses successfully to exactly that
value. -/
theorem hexToInt64_valid_hex (pre digits : List Char)
    (hpre : pre = [] ∨ pre = ['0', 'x'])
    (hne : digits ≠ [])
    (hhex : ∀ c ∈ digits, isHexDigit c = true)
    (hle : (hexNatValue digits : Int) ≤ int64Max) :
    hexToInt64Core (pre ++ digits) = Except.ok ((hexNatValue digits : Int)) := by
  have hstrip : strip0x (pre ++ digits) = digits :=
    strip0x_of_digits pre digits hpre hhex
  simp only [hexToInt64Core, hstrip, bigIntSetString16_digits digits hne hhex]
  rw [if_neg]
  exact not_or.mpr
    ⟨not_lt.mpr (le_trans (by decide) (Int.natCast_nonneg _)), not_lt.mpr hle⟩

/-- Witness for C5: `0x64` parses to 100. -/
theorem hexToInt64_valid_hex_witness :
    hexToInt64Core (['0', 'x'] ++ ['6', '4']) = Except.ok 100 :=
  hexToInt64_valid_hex ['0', 'x'] ['6', '4']
    (Or.inr rfl) (by decide) (by decide) (by decide)

/-- Claim C6: `0x7fffffffffffffff` parses to the maximum signed 64-bit
value, `0x8000000000000000` fails with the overflow error, and in
general every well-formed hex string (optional `0x` prefix plus hex
digits) whose value exceeds the signed 64-bit maximum fails with the
overflow error rather than being truncated. -/
theorem hexToInt64_overflow_guard :
    hexToInt64 ("0x7fffffffffffffff") = Except.ok int64Max ∧
    hexToInt64 ("0x8000000000000000") =
      Except.error ("hex value too large for int64: 8000000000000000") ∧
    ∀ (pre digits : List Char), pre = [] ∨ pre = ['0', 'x'] → digits ≠ [] →
      (∀ c ∈ digits, isHexDigit c = true) → int64Max < (hexNatValue digits : Int) →
      hexToInt64Core (pre ++ digits) =
        Except.error ("hex value too large for int64: " ++ String.mk digits) := by
  refine ⟨by rfl, by rfl, ?_⟩
  intro pre digits hpre hne hhex hgt
  have hstrip : strip0x (pre ++ digits) = digits :=
    strip0x_of_digits pre digits hpre hhex
  simp only [hexToInt64Core, hstrip, bigIntSetString16_digits digits hne hhex]
  rw [if_pos (Or.inr hgt)]

/-- Witness for C6: the 17-digit string `10000000000000000`, whose
value is 2^64, overflows. -/
theorem hexToInt64_overflow_guard_witness :
    hexToInt64Core
        (['0', 'x'] ++
          ['1', '0', '0', '0', '0', '0', '0', '0', '0', '0', '0', '0', '0', '0', '0', '0', '0']) =
      Except.error ("hex value too large for int64: " ++
        String.mk
          ['1', '0', '0', '0', '0', '0', '0', '0', '0', '0', '0', '0', '0', '0', '0', '0', '0']) :=
  hexToInt64_overflow_guard.2.2 ['0', 'x']
    ['1', '0', '0', '0', '0', '0', '0', '0', '0', '0', '0', '0', '0', '0', '0', '0', '0']
    (Or.inr rfl) (by decide) (by decide) (by decide)

/-- Claim C8: the inputs `0x`, the empty string, and `0xzz` all fail
with the malformed-hex error. -/
theorem hexToInt64_malformed_examples :
    hexToInt64 ("0x") = Except.error ("failed to parse hex string: ") ∧
    hexToInt64 ("") = Except.error ("failed to parse hex string: ") ∧
    hexToInt64 ("0xzz") = Except.error ("failed to parse hex string: zz") :=
  ⟨rfl, rfl, rfl⟩

/-- Claim C9: `hexToInt64` accepts a leading sign, a character outside
`[0-9a-fA-F]`: both `-ff` and `0x-1` parse successfully to negative
values, so a successfully parsed height is not guaranteed to be
non-negative. -/
theorem hexToInt64_accepts_signs :
    isHexDigit '-' = false ∧
    hexToInt64 ("-ff") = Except.ok (-255) ∧
    hexToInt64 ("0x-1") = Except.ok (-1) ∧
    (-255 : Int) < 0 :=
  ⟨rfl, rfl, rfl, by decide⟩

/-- Claim C7: with `criticalThreshold = 3` and `stallCount = 0`, four
consecutive evaluations each observing a height not exceeding the
current `previousHeight` drive `stallCount` to 4; the first three
return WARNING and the fourth CRITICAL.  The states `st1`, `st2`,
`st3` name the detector state after each of the first three calls. -/
theorem pluginFeature_four_stalls_critical
    (cfg : Config) (m : String) (st0 st1 st2 st3 : DetectorState)
    (s1 s2 s3 s4 : String) (h1 h2 h3 h4 : Int)
    (hcfg : cfg.criticalCount = 3) (hw0 : st0.warningCount = 0)
    (hp1 : hexToInt64 s1 = Except.ok h1) (hp2 : hexToInt64 s2 = Except.ok h2)
    (hp3 : hexToInt64 s3 = Except.ok h3) (hp4 : hexToInt64 s4 = Except.ok h4)
    (hle1 : h1 ≤ st0.prevHeight) (hle2 : h2 ≤ h1) (hle3 : h3 ≤ h2)
    (hle4 : h4 ≤ h3)
    (he1 : st1 = (pluginFeature cfg m st0 (RpcOutcome.ok s1)).newState)
    (he2 : st2 = (pluginFeature cfg m st1 (RpcOutcome.ok s2)).newState)
    (he3 : st3 = (pluginFeature cfg m st2 (RpcOutcome.ok s3)).newState) :
    (pluginFeature cfg m st0 (RpcOutcome.ok s1)).resp.severity = Severity.warning ∧
    (pluginFeature cfg m st1 (RpcOutcome.ok s2)).resp.severity = Severity.warning ∧
    (pluginFeature cfg m st2 (RpcOutcome.ok s3)).resp.severity = Severity.warning ∧
    (pluginFeature cfg m st3 (RpcOutcome.ok s4)).resp.severity = Severity.critical ∧
    (pluginFeature cfg m st3 (RpcOutcome.ok s4)).newState.warningCount = 4 := by
  have w1 : wrap64 (0 + 1) = 1 := by decide
  have w2 : wrap64 (1 + 1) = 2 := by decide
  have w3 : wrap64 (2 + 1) = 3 := by decide
  have w4 : wrap64 (3 + 1) = 4 := by decide
  have hst1 : st1 = ⟨h1, 1⟩ := by
    rw [he1, stall_step_newState cfg m s1 st0 h1 hp1 hle1, hw0, w1]
  have hw1 : st1.warningCount = 1 := by rw [hst1]
  have hv1 : st1.prevHeight = h1 := by rw [hst1]
  have hle2' : h2 ≤ st1.prevHeight := by rw [hv1]; exact hle2
  have hst2 : st2 = ⟨h2, 2⟩ := by
    rw [he2, stall_step_newState cfg m s2 st1 h2 hp2 hle2', hw1, w2]
  have hw2 : st2.warningCount = 2 := by rw [hst2]
  have hv2 : st2.prevHeight = h2 := by rw [hst2]
  have hle3' : h3 ≤ st2.prevHeight := by rw [hv2]; exact hle3
  have hst3 : st3 = ⟨h3, 3⟩ := by
    rw [he3, stall_step_newState cfg m s3 st2 h3 hp3 hle3', hw2, w3]
  have hw3 : st3.warningCount = 3 := by rw [hst3]
  have hv3 : st3.prevHeight = h3 := by rw [hst3]
  have hle4' : h4 ≤ st3.prevHeight := by rw [hv3]; exact hle4
  refine ⟨?_, ?_, ?_, ?_, ?_⟩
  · rw [stall_step_severity cfg m s1 st0 h1 hp1 hle1, hw0, w1, hcfg,
      if_neg (by decide)]
  · rw [stall_step_severity cfg m s2 st1 h2 hp2 hle2', hw1, w2, hcfg,
      if_neg (by decide)]
  · rw [stall_step_severity cfg m s3 st2 h3 hp3 hle3', hw2, w3, hcfg,
      if_neg (by decide)]
  · rw [stall_step_severity cfg m s4 st3 h4 hp4 hle4', hw3, w4, hcfg,
      if_pos (by decide)]
  · rw [stall_step_newState cfg m s4 st3 h4 hp4 hle4', hw3, w4]

/-- Witness for C7: threshold 3, starting at height 100 with count 0,
the height string `0x64` (100) observed four times in a row. -/
theorem pluginFeature_four_stalls_critical_witness :
    (pluginFeature ⟨3⟩ ("m") ⟨100, 0⟩ (RpcOutcome.ok ("0x64"))).resp.severity
        = Severity.warning ∧
    (pluginFeature ⟨3⟩ ("m") ⟨100, 1⟩ (RpcOutcome.ok ("0x64"))).resp.severity
        = Severity.warning ∧
    (pluginFeature ⟨3⟩ ("m") ⟨100, 2⟩ (RpcOutcome.ok ("0x64"))).resp.severity
        = Severity.warning ∧
    (pluginFeature ⟨3⟩ ("m") ⟨100, 3⟩ (RpcOutcome.ok ("0x64"))).resp.severity
        = Severity.critical ∧
    (pluginFeature ⟨3⟩ ("m") ⟨100, 3⟩ (RpcOutcome.ok ("0x64"))).newState.warningCount
        = 4 :=
  pluginFeature_four_stalls_critical ⟨3⟩ "m" ⟨100, 0⟩ ⟨100, 1⟩ ⟨100, 2⟩ ⟨100, 3⟩
    ("0x64") ("0x64") ("0x64") ("0x64") 100 100 100 100
    rfl rfl rfl rfl rfl rfl
    (by decide) (by decide) (by decide) (by decide)
    (by rfl) (by rfl) (by rfl)

/-- Claim C10: every value returned by the evaluation has severity in
INFO, WARNING, CRITICAL and state in SUCCESS, FAILURE: the initial
UNKNOWN severity and NONE state are overwritten on every return path
and are never observable. -/
theorem pluginFeature_severity_state_range
    (cfg : Config) (m : String) (st : DetectorState) (rpc : RpcOutcome) :
    ((pluginFeature cfg m st rpc).resp.severity = Severity.info ∨
     (pluginFeature cfg m st rpc).resp.severity = Severity.warning ∨
     (pluginFeature cfg m st rpc).resp.severity = Severity.critical) ∧
    ((pluginFeature cfg m st rpc).resp.state = PState.success ∨
     (pluginFeature cfg m st rpc).resp.state = PState.failure) := by
  cases rpc with
  | transportErr e => exact ⟨Or.inr (Or.inr rfl), Or.inr rfl⟩
  | decodeErr e => exact ⟨Or.inr (Or.inr rfl), Or.inr rfl⟩
  | ok result =>
    cases hres : hexToInt64 result with
    | error e =>
      constructor
      · refine Or.inr (Or.inr ?_)
        simp [pluginFeature, hres]
      · refine Or.inr ?_
        simp [pluginFeature, hres]
    | ok v =>
      simp only [pluginFeature, hres]
      by_cases hgt : v > st.prevHeight
      · rw [if_pos hgt]
        exact ⟨Or.inl rfl, Or.inl rfl⟩
      · rw [if_neg hgt]
        by_cases hc : wrap64 (st.warningCount + 1) > cfg.criticalCount
        · rw [if_pos hc]
          exact ⟨Or.inr (Or.inr rfl), Or.inl rfl⟩
        · rw [if_neg hc]
          exact ⟨Or.inr (Or.inl rfl), Or.inl rfl⟩

end VatzEthereum
